import Mathlib

/-!
Verification of the crop-normalization and result-rendering pipeline of
`src/app.py` (a Streamlit object-detection demo).

The embedding below translates, line by line, the parts of `app.py` that the
properties are about:

* the RGBA-to-RGB pre-processing branch (lines 87-93): a bitmap whose PIL
  mode string is exactly `'RGBA'` is pasted onto a freshly created white
  `RGB` background using its alpha band as the paste mask; any other mode is
  passed through unchanged.  The paste blend is PIL's
  `BLEND(mask, dst, src) = MULDIV255(dst, 255-mask) + MULDIV255(src, mask)`
  with `MULDIV255(a, b) = (t := a*b + 128; ((t >> 8) + t) >> 8)`.
* the response-display branch (lines 108-127), including the Python
  truthiness tests on `response.error.message` and `localized_objects`, the
  `:.2%` / `:.2f` fixed-point formatting, and the bare `try/except` around
  the bounding-polygon access (modelled as `Option` matching on the two
  indexed vertices).
* the credential `try/except` (lines 16-26) and the `client_ready` gate
  (lines 82-129), modelled as a page-evaluation function from the abstract
  outcomes of the external libraries (secret store, JSON parser, Vision
  client constructor, cropper widget, remote service) to the list of
  Streamlit effects the script emits plus the payload sent to the remote
  service, if any.
-/

set_option autoImplicit false

/-- A pixel with four 8-bit bands.  For bitmaps whose mode has fewer bands
(`RGB`, `L`, ...) the unused bands are carried along; an `RGB`-mode bitmap
keeps `a = 255` by convention, mirroring PIL's padded internal storage. -/
structure Pixel where
  r : Nat
  g : Nat
  b : Nat
  a : Nat
  deriving DecidableEq

/-- The PIL mode strings that can reach line 87 of `app.py` for a jpg/png
upload: `RGBA`, `RGB`, `LA` (grayscale with alpha), `L`, and `P` (palette). -/
inductive Mode where
  | RGBA
  | RGB
  | LA
  | L
  | P
  deriving DecidableEq

/-- Whether a mode carries an alpha channel (`RGBA` and `LA` do). -/
def hasAlpha : Mode → Bool
  | Mode.RGBA => true
  | Mode.LA => true
  | _ => false

/-- An in-memory bitmap: mode, dimensions and a row-major pixel grid. -/
structure Bitmap where
  mode : Mode
  width : Nat
  height : Nat
  pixels : List (List Pixel)
  deriving DecidableEq

/-- The pixel grid is consistent with the declared dimensions. -/
def Bitmap.wfb (b : Bitmap) : Bool :=
  b.pixels.length == b.height && b.pixels.all (fun row => row.length == b.width)

/-- Pixel at row `i`, column `j` (defaulting outside the grid). -/
def pixelAt (b : Bitmap) (i j : Nat) : Pixel :=
  (b.pixels.getD i []).getD j ⟨0, 0, 0, 0⟩

/-- PIL's `MULDIV255` rounding helper: approximate `(a * b) / 255`. -/
def muldiv255 (a b : Nat) : Nat :=
  let t := a * b + 128
  (t / 256 + t) / 256

/-- PIL's per-band paste blend with an `L`-mode mask value `m`:
`BLEND(m, d, s) = MULDIV255(d, 255 - m) + MULDIV255(s, m)`. -/
def blendChannel (m d s : Nat) : Nat :=
  muldiv255 d (255 - m) + muldiv255 s m

/-- Blend source pixel `s` over destination pixel `d` with mask value `m`.
The destination here is always the `RGB`-mode background, which has no alpha
band, so its fourth band is left untouched. -/
def pastePixel (d s : Pixel) (m : Nat) : Pixel :=
  { r := blendChannel m d.r s.r
    g := blendChannel m d.g s.g
    b := blendChannel m d.b s.b
    a := d.a }

/-- The solid white pixel of the background created on line 89. -/
def whitePixel : Pixel := ⟨255, 255, 255, 255⟩

/-- `Image.new(mode, size, color)`: a `w × h` bitmap filled with `color`. -/
def imageNew (m : Mode) (w h : Nat) (color : Pixel) : Bitmap :=
  { mode := m, width := w, height := h
    pixels := List.replicate h (List.replicate w color) }

/-- `cropped_img.split()[3]`: the alpha band of the bitmap as a mask grid. -/
def alphaChannel (b : Bitmap) : List (List Nat) :=
  b.pixels.map (fun row => row.map Pixel.a)

/-- Pointwise `zipWith` over three lists, truncating to the shortest. -/
def zipWith3 {α β γ δ : Type} (f : α → β → γ → δ) : List α → List β → List γ → List δ
  | x :: xs, y :: ys, z :: zs => f x y z :: zipWith3 f xs ys zs
  | _, _, _ => []

/-- `background.paste(cropped_img, mask=alpha)` (line 90): blend the source
into the destination under the mask, keeping the destination's mode and
dimensions. -/
def paste (dst src : Bitmap) (mask : List (List Nat)) : Bitmap :=
  { mode := dst.mode, width := dst.width, height := dst.height
    pixels := zipWith3 (fun dRow sRow mRow => zipWith3 pastePixel dRow sRow mRow)
      dst.pixels src.pixels mask }

/-- Lines 87-93 of `app.py`: the bitmap handed to the JPEG encoder.  If the
crop's mode is exactly `RGBA` it is composited onto a fresh white `RGB`
background of the same size using its alpha band as the mask; otherwise the
crop is passed through unchanged. -/
def final_img (cropped_img : Bitmap) : Bitmap :=
  if cropped_img.mode = Mode.RGBA then
    paste (imageNew Mode.RGB cropped_img.width cropped_img.height whitePixel)
      cropped_img (alphaChannel cropped_img)
  else cropped_img

/-- Round a rational to the nearest integer (half away from zero upward),
modelling the decimal rounding CPython performs when formatting. -/
def qRound (q : ℚ) : Int := ⌊q + 1 / 2⌋

/-- Two-digit zero padding for the fractional part. -/
def pad2 (n : Nat) : String :=
  if n < 10 then "0" ++ toString n else toString n

/-- Python's fixed-point `:.2f` format on a rational value. -/
def fmtFixed2 (q : ℚ) : String :=
  let n : Int := qRound (q * 100)
  if n < 0 then "-" ++ toString ((-n).toNat / 100) ++ "." ++ pad2 ((-n).toNat % 100)
  else toString (n.toNat / 100) ++ "." ++ pad2 (n.toNat % 100)

/-- Python's `:.2%` format: the value scaled to a percentage, rendered with
two digits after the decimal point, followed by a percent sign. -/
def fmtPercent (q : ℚ) : String :=
  fmtFixed2 (q * 100) ++ "%"

/-- A normalized bounding-polygon vertex (coordinates in `[0, 1]`). -/
structure Vertex where
  x : ℚ
  y : ℚ
  deriving DecidableEq

/-- One localized-object annotation from the Vision response: display name,
confidence score, and the `bounding_poly.normalized_vertices` list (empty
when the field is missing, as protobuf defaults it). -/
structure DetectedObject where
  name : String
  score : ℚ
  normalized_vertices : List Vertex
  deriving DecidableEq

/-- The service response as the script reads it: `response.error.message`
(empty string when no error) and `response.localized_object_annotations`. -/
structure DetectionResult where
  error_message : String
  localized_objects : List DetectedObject
  deriving DecidableEq

/-- One observable Streamlit output emitted by the script. -/
inductive Effect where
  | errorMsg (s : String)
  | exceptionTrace (s : String)
  | successMsg (s : String)
  | infoMsg (s : String)
  | warningMsg (s : String)
  | writeLine (s : String)
  | captionLine (s : String)
  | markdownBlock (s : String)
  | cropperWidget
  | imagePreview (b : Bitmap)
  | detectButton
  deriving DecidableEq

/-- Lines 116-125 of `app.py`: the effects one localized object produces.
The `st.write` line formats the name and the score with `:.2%`; the caption
is built inside a bare `try/except`, so it is the vertex caption exactly
when indexing `v[0]` and `v[2]` succeeds and otherwise the fallback text. -/
def renderObject (obj : DetectedObject) : List Effect :=
  Effect.writeLine ("- **" ++ obj.name ++ "** (Score: " ++ fmtPercent obj.score ++ ")") ::
    (match obj.normalized_vertices.get? 0, obj.normalized_vertices.get? 2 with
     | some v0, some v2 =>
        [Effect.captionLine ("Box: (" ++ fmtFixed2 v0.x ++ ", " ++ fmtFixed2 v0.y ++
          ") to (" ++ fmtFixed2 v2.x ++ ", " ++ fmtFixed2 v2.y ++ ")")]
     | _, _ => [Effect.captionLine "Bounding box data unavailable."])

/-- Lines 108-127 of `app.py`: display of the detection response.  A truthy
(non-empty) `response.error.message` short-circuits to a single error
effect; otherwise the success banner and heading are shown, followed either
by the per-object effects or, for an empty annotation list, the
no-objects info message. -/
def renderResponse (response : DetectionResult) : List Effect :=
  if response.error_message ≠ "" then
    [Effect.errorMsg ("API Error: " ++ response.error_message)]
  else
    Effect.successMsg "✅ Object Localization Complete" ::
      Effect.markdownBlock "### 🔍 Detected Objects:" ::
        (if response.localized_objects ≠ [] then
          (response.localized_objects.map renderObject).flatten
        else
          [Effect.infoMsg "No specific objects were localized in the selected region."])

/-- An authenticated Vision client handle, opaque to the script. -/
structure VisionClient where
  handle : Nat
  deriving DecidableEq

/-- Abstract outcome of the credential `try` block's external calls
(lines 18-20): either every step succeeded and produced a client, or some
step (missing secret, malformed JSON, rejected service account) raised an
exception carrying a message. -/
inductive CredOutcome where
  | ok (c : VisionClient)
  | failed (err : String)

/-- State left by the credential block (lines 16-26): the effects it
emitted, the `client_ready` session flag and the `client` binding. -/
structure InitState where
  effects : List Effect
  client_ready : Bool
  client : Option VisionClient

/-- Lines 16-26 of `app.py`: on success set `client_ready`; on any
exception show the error plus the traceback, clear `client_ready`, and set
`client = None`. -/
def initClient : CredOutcome → InitState
  | CredOutcome.ok c => ⟨[], true, some c⟩
  | CredOutcome.failed e =>
      ⟨[Effect.errorMsg "❌ Could not load Google Vision API credentials from Streamlit Secrets.",
        Effect.exceptionTrace e], false, none⟩

/-- Outcome of `Image.open` on the uploaded file (line 50): a decoded
bitmap, or the exception message when the bytes are not a valid image. -/
abbrev UploadOutcome := Except String Bitmap

/-- Lines 16-132 of `app.py` as a function of the external inputs: the
credential outcome, the uploader state (`none` = no file yet), the bitmap
the cropper widget currently yields, whether the detect button was pressed
on this run, and the remote service's response.  Returns the emitted
effects together with the bitmap handed to JPEG encoding for the API call,
or `none` when no remote call happens. -/
def runApp (cred : CredOutcome) (uploaded : Option UploadOutcome)
    (cropped_img : Bitmap) (pressed : Bool) (response : DetectionResult) :
    List Effect × Option Bitmap :=
  let init := initClient cred
  match uploaded with
  | none => (init.effects ++ [Effect.infoMsg "👆 Upload an image to begin."], none)
  | some (Except.error e) =>
      (init.effects ++ [Effect.errorMsg ("Error reading image file: " ++ e)], none)
  | some (Except.ok _image) =>
      let base := init.effects ++ [Effect.cropperWidget, Effect.imagePreview cropped_img]
      if init.client_ready then
        if pressed then
          (base ++ Effect.detectButton ::
              Effect.infoMsg "Running Object Localization on cropped image..." ::
              renderResponse response,
            some (final_img cropped_img))
        else (base ++ [Effect.detectButton], none)
      else
        (base ++ [Effect.warningMsg "Cannot run detection: Vision API client failed to initialize."],
          none)

/-! ### List access helpers for the paste proofs -/

theorem listGetD_map {α β : Type} (f : α → β) (d : α) :
    ∀ (xs : List α) (i : Nat), i < xs.length → (xs.map f).getD i (f d) = f (xs.getD i d) := by
  intro xs
  induction xs with
  | nil => intro i h; exact absurd h (Nat.not_lt_zero i)
  | cons x xs ih =>
    intro i h
    cases i with
    | zero => rfl
    | succ j => exact ih j (Nat.lt_of_succ_lt_succ h)

theorem listGetD_replicate {α : Type} (x d : α) :
    ∀ (n i : Nat), i < n → (List.replicate n x).getD i d = x := by
  intro n
  induction n with
  | zero => intro i h; exact absurd h (Nat.not_lt_zero i)
  | succ m ih =>
    intro i h
    cases i with
    | zero => rfl
    | succ j => exact ih j (Nat.lt_of_succ_lt_succ h)

theorem listGetD_mem {α : Type} (d : α) :
    ∀ (xs : List α) (i : Nat), i < xs.length → xs.getD i d ∈ xs := by
  intro xs
  induction xs with
  | nil => intro i h; exact absurd h (Nat.not_lt_zero i)
  | cons x xs ih =>
    intro i h
    cases i with
    | zero => exact List.mem_cons_self x xs
    | succ j => exact List.mem_cons_of_mem x (ih j (Nat.lt_of_succ_lt_succ h))

theorem zipWith3_getD {α β γ δ : Type} (f : α → β → γ → δ) (da : α) (db : β) (dc : γ) :
    ∀ (xs : List α) (ys : List β) (zs : List γ) (i : Nat),
      i < xs.length → i < ys.length → i < zs.length →
      (zipWith3 f xs ys zs).getD i (f da db dc) = f (xs.getD i da) (ys.getD i db) (zs.getD i dc) := by
  intro xs
  induction xs with
  | nil => intro ys zs i h _ _; exact absurd h (Nat.not_lt_zero i)
  | cons x xs ih =>
    intro ys zs i hx hy hz
    cases ys with
    | nil => exact absurd hy (Nat.not_lt_zero i)
    | cons y ys =>
      cases zs with
      | nil => exact absurd hz (Nat.not_lt_zero i)
      | cons z zs =>
        cases i with
        | zero => rfl
        | succ j =>
          exact ih ys zs j (Nat.lt_of_succ_lt_succ hx) (Nat.lt_of_succ_lt_succ hy)
            (Nat.lt_of_succ_lt_succ hz)

theorem listMap_length {α β : Type} (f : α → β) (xs : List α) :
    (xs.map f).length = xs.length := List.length_map xs f

theorem zipWith3_length {α β γ δ : Type} (f : α → β → γ → δ) :
    ∀ (xs : List α) (ys : List β) (zs : List γ),
      (zipWith3 f xs ys zs).length = min xs.length (min ys.length zs.length) := by
  intro xs
  induction xs with
  | nil => intro ys zs; simp [zipWith3]
  | cons x xs ih =>
    intro ys zs
    cases ys with
    | nil => simp [zipWith3]
    | cons y ys =>
      cases zs with
      | nil => simp [zipWith3]
      | cons z zs =>
        simp only [zipWith3, List.length_cons, ih]
        omega

theorem listGetD_congr {α : Type} :
    ∀ (xs : List α) (i : Nat) (d d' : α), i < xs.length → xs.getD i d = xs.getD i d' := by
  intro xs
  induction xs with
  | nil => intro i d d' h; exact absurd h (Nat.not_lt_zero i)
  | cons x xs ih =>
    intro i d d' h
    cases i with
    | zero => rfl
    | succ j => exact ih j d d' (Nat.lt_of_succ_lt_succ h)

theorem bitmap_wfb_spec (b : Bitmap) (h : b.wfb = true) :
    b.pixels.length = b.height ∧ ∀ row ∈ b.pixels, row.length = b.width := by
  simp only [Bitmap.wfb, Bool.and_eq_true, beq_iff_eq, List.all_eq_true] at h
  exact h

theorem muldiv255_right_zero (a : Nat) : muldiv255 a 0 = 0 := by
  simp [muldiv255]

theorem blendChannel_mask_zero_white (s : Nat) : blendChannel 0 255 s = 255 := by
  simp [blendChannel, muldiv255]

theorem pastePixel_white_transparent (s : Pixel) : pastePixel whitePixel s 0 = whitePixel := by
  simp [pastePixel, whitePixel, blendChannel_mask_zero_white]

/-- In-bounds pixels of the composited bitmap: each is the white background
pixel blended with the corresponding source pixel under the source's own
alpha value. -/
theorem final_img_pixelAt (b : Bitmap) (hm : b.mode = Mode.RGBA) (hwf : b.wfb = true)
    (i j : Nat) (hi : i < b.height) (hj : j < b.width) :
    pixelAt (final_img b) i j = pastePixel whitePixel (pixelAt b i j) (pixelAt b i j).a := by
  obtain ⟨hlen, hrow⟩ := bitmap_wfb_spec b hwf
  have hi' : i < b.pixels.length := hlen ▸ hi
  have hsLen : (b.pixels.getD i []).length = b.width := hrow _ (listGetD_mem [] b.pixels i hi')
  have hfin : final_img b =
      paste (imageNew Mode.RGB b.width b.height whitePixel) b (alphaChannel b) := by
    simp [final_img, hm]
  have houter :
      (final_img b).pixels.getD i [] =
        zipWith3 pastePixel ((List.replicate b.height (List.replicate b.width whitePixel)).getD i [])
          (b.pixels.getD i []) ((b.pixels.map (fun row => row.map Pixel.a)).getD i []) := by
    rw [hfin]
    show (zipWith3 (fun dRow sRow mRow => zipWith3 pastePixel dRow sRow mRow)
        (List.replicate b.height (List.replicate b.width whitePixel)) b.pixels
        (b.pixels.map (fun row => row.map Pixel.a))).getD i [] = _
    rw [listGetD_congr _ i []
      ((fun (dRow sRow : List Pixel) (mRow : List Nat) => zipWith3 pastePixel dRow sRow mRow) [] [] [])]
    · exact zipWith3_getD _ [] [] [] _ _ _ i (by simpa using hi) hi' (by simpa using hi')
    · have hz := zipWith3_length (fun (dRow sRow : List Pixel) (mRow : List Nat) =>
        zipWith3 pastePixel dRow sRow mRow)
        (List.replicate b.height (List.replicate b.width whitePixel)) b.pixels
        (b.pixels.map (fun row => row.map Pixel.a))
      rw [hz]
      simp [hlen, hi]
  have hdstRow : (List.replicate b.height (List.replicate b.width whitePixel)).getD i [] =
      List.replicate b.width whitePixel := listGetD_replicate _ [] b.height i hi
  have hmaskRow : (b.pixels.map (fun row => row.map Pixel.a)).getD i [] =
      (b.pixels.getD i []).map Pixel.a := by
    rw [listGetD_congr _ i [] (([] : List Pixel).map Pixel.a) (by simpa using hi')]
    exact listGetD_map (fun row => row.map Pixel.a) [] b.pixels i hi'
  have hjrow : j < (b.pixels.getD i []).length := lt_of_lt_of_eq hj hsLen.symm
  have hinner :
      (zipWith3 pastePixel (List.replicate b.width whitePixel) (b.pixels.getD i [])
          ((b.pixels.getD i []).map Pixel.a)).getD j (⟨0, 0, 0, 0⟩ : Pixel) =
        pastePixel whitePixel ((b.pixels.getD i []).getD j ⟨0, 0, 0, 0⟩)
          ((b.pixels.getD i []).getD j ⟨0, 0, 0, 0⟩).a := by
    rw [listGetD_congr _ j (⟨0, 0, 0, 0⟩ : Pixel)
      (pastePixel whitePixel ⟨0, 0, 0, 0⟩ (Pixel.a ⟨0, 0, 0, 0⟩))]
    · rw [zipWith3_getD pastePixel whitePixel ⟨0, 0, 0, 0⟩ (Pixel.a ⟨0, 0, 0, 0⟩) _ _ _ j
        (by simpa using hj) hjrow (by rw [listMap_length]; exact hjrow)]
      rw [listGetD_replicate whitePixel whitePixel b.width j hj]
      rw [listGetD_map Pixel.a ⟨0, 0, 0, 0⟩ _ j hjrow]
    · rw [zipWith3_length]
      have h1 : (List.replicate b.width whitePixel).length = b.width := by
        exact List.length_replicate b.width whitePixel
      have h2 : ((b.pixels.getD i []).map Pixel.a).length = (b.pixels.getD i []).length :=
        listMap_length Pixel.a _
      omega
  show ((final_img b).pixels.getD i []).getD j ⟨0, 0, 0, 0⟩ = _
  rw [houter, hdstRow, hmaskRow, hinner]
  rfl

/-- Concrete RGBA crop used to instantiate the C1 theorem: one transparent
pixel and one opaque pixel. -/
def c1demo : Bitmap := ⟨Mode.RGBA, 2, 1, [[⟨10, 20, 30, 0⟩, ⟨200, 100, 50, 255⟩]]⟩

/-- Concrete grayscale-plus-alpha crop refuting claim C1 as stated. -/
def c1demoLA : Bitmap := ⟨Mode.LA, 1, 1, [[⟨7, 7, 7, 0⟩]]⟩

/-- C1, counterexample: the claim quantifies over every bitmap whose color
mode includes an alpha channel, but line 87 of `app.py` composites only
when the mode is exactly `RGBA`.  A non-empty `LA`-mode bitmap has an alpha
channel, yet it reaches the JPEG save unchanged: still transparent at its
transparent pixel and not white there, so the bitmap passed to compression
is neither fully opaque nor white where it was fully transparent. -/
theorem c1_counterexample :
    hasAlpha c1demoLA.mode = true ∧ c1demoLA.wfb = true ∧
      0 < c1demoLA.width ∧ 0 < c1demoLA.height ∧
      final_img c1demoLA = c1demoLA ∧
      hasAlpha (final_img c1demoLA).mode = true ∧
      (pixelAt c1demoLA 0 0).a = 0 ∧
      (pixelAt (final_img c1demoLA) 0 0).a = 0 ∧
      pixelAt (final_img c1demoLA) 0 0 ≠ whitePixel := by
  decide

/-- C1, amended (composite only for mode exactly `RGBA`): for every
non-empty well-formed bitmap whose color mode is exactly `RGBA`, the bitmap
passed to compression is the input composited onto a solid white background
of the same dimensions with the alpha channel as the blend mask; it is
fully opaque (mode `RGB`, every stored alpha byte 255) and every originally
fully-transparent pixel is uniform white. -/
theorem c1_amended_theorem (b : Bitmap) (hm : b.mode = Mode.RGBA) (hwf : b.wfb = true)
    (hw : 0 < b.width) (hh : 0 < b.height) :
    (final_img b).mode = Mode.RGB ∧
      (final_img b).width = b.width ∧
      (final_img b).height = b.height ∧
      (∀ i j, i < b.height → j < b.width →
        pixelAt (final_img b) i j = pastePixel whitePixel (pixelAt b i j) (pixelAt b i j).a) ∧
      (∀ i j, i < b.height → j < b.width → (pixelAt (final_img b) i j).a = 255) ∧
      (∀ i j, i < b.height → j < b.width → (pixelAt b i j).a = 0 →
        pixelAt (final_img b) i j = whitePixel) := by
  refine ⟨by simp [final_img, hm, paste, imageNew],
    by simp [final_img, hm, paste, imageNew],
    by simp [final_img, hm, paste, imageNew],
    fun i j hi hj => final_img_pixelAt b hm hwf i j hi hj, ?_, ?_⟩
  · intro i j hi hj
    rw [final_img_pixelAt b hm hwf i j hi hj]
    rfl
  · intro i j hi hj ha
    rw [final_img_pixelAt b hm hwf i j hi hj, ha, pastePixel_white_transparent]

/-- Witness for C1's amended theorem at the concrete bitmap `c1demo`. -/
theorem c1_amended_witness :
    (final_img c1demo).mode = Mode.RGB ∧ pixelAt (final_img c1demo) 0 0 = whitePixel := by
  have h := c1_amended_theorem c1demo rfl (by decide) (by decide) (by decide)
  exact ⟨h.1, h.2.2.2.2.2 0 0 (by decide) (by decide) (by decide)⟩

/-- C6: a non-empty bitmap whose color mode has no alpha channel is passed
to compression completely unchanged (the `else` branch on line 92-93). -/
theorem c6_no_alpha_passthrough (b : Bitmap) (h : hasAlpha b.mode = false)
    (hw : 0 < b.width) (hh : 0 < b.height) : final_img b = b := by
  have hm : b.mode ≠ Mode.RGBA := by
    intro e
    rw [e] at h
    simp [hasAlpha] at h
  simp [final_img, hm]

/-- Witness for C6 at a concrete RGB bitmap. -/
theorem c6_witness :
    final_img ⟨Mode.RGB, 1, 1, [[⟨5, 6, 7, 255⟩]]⟩ = ⟨Mode.RGB, 1, 1, [[⟨5, 6, 7, 255⟩]]⟩ :=
  c6_no_alpha_passthrough ⟨Mode.RGB, 1, 1, [[⟨5, 6, 7, 255⟩]]⟩ (by decide) (by decide) (by decide)

/-- C8: the normalization is idempotent.  Every output of the `RGBA` branch
has mode `RGB`, and any bitmap that does not have mode `RGBA` (in
particular every output of the normalization, which is already opaque) is
passed through unchanged, so re-applying the composition is a no-op. -/
theorem c8_idempotent (b : Bitmap) : final_img (final_img b) = final_img b := by
  by_cases hm : b.mode = Mode.RGBA
  · simp [final_img, hm, paste, imageNew]
  · simp [final_img, hm]

/-- C9: the composite branch is taken if and only if the mode is exactly
`RGBA`.  Any other mode is passed to the JPEG encoding unchanged, even a
mode such as `LA` that still carries an alpha channel. -/
theorem c9_composite_iff_rgba :
    (∀ b : Bitmap, b.mode ≠ Mode.RGBA → final_img b = b) ∧
      (∀ b : Bitmap, b.mode = Mode.RGBA →
        final_img b =
          paste (imageNew Mode.RGB b.width b.height whitePixel) b (alphaChannel b)) ∧
      hasAlpha Mode.LA = true ∧ hasAlpha Mode.RGBA = true := by
  refine ⟨fun b h => by simp [final_img, h], fun b h => by simp [final_img, h], rfl, rfl⟩

/-- Witness for C9: an `LA` bitmap with a transparent pixel is passed
through unchanged, while an `RGBA` bitmap is composited. -/
theorem c9_witness :
    final_img ⟨Mode.LA, 1, 1, [[⟨9, 9, 9, 0⟩]]⟩ = ⟨Mode.LA, 1, 1, [[⟨9, 9, 9, 0⟩]]⟩ ∧
      final_img ⟨Mode.RGBA, 1, 1, [[⟨1, 2, 3, 4⟩]]⟩ =
        paste (imageNew Mode.RGB 1 1 whitePixel) ⟨Mode.RGBA, 1, 1, [[⟨1, 2, 3, 4⟩]]⟩
          (alphaChannel ⟨Mode.RGBA, 1, 1, [[⟨1, 2, 3, 4⟩]]⟩) :=
  ⟨c9_composite_iff_rgba.1 _ (by decide), c9_composite_iff_rgba.2.1 _ rfl⟩

/-- C2: whenever the remote-reported error field is non-empty (Python
truthiness of `response.error.message`), the renderer emits exactly one
error effect carrying that message and nothing else — no success banner, no
entry lines, no captions — regardless of the entries also present. -/
theorem c2_error_short_circuits (response : DetectionResult)
    (h : response.error_message ≠ "") :
    renderResponse response = [Effect.errorMsg ("API Error: " ++ response.error_message)] := by
  simp [renderResponse, h]

/-- Witness for C2: a response with error "quota exceeded" and a non-empty
entry list renders only the error effect. -/
theorem c2_witness :
    renderResponse ⟨"quota exceeded", [⟨"Cat", 0.5, []⟩]⟩ =
      [Effect.errorMsg ("API Error: " ++ "quota exceeded")] :=
  c2_error_short_circuits ⟨"quota exceeded", [⟨"Cat", 0.5, []⟩]⟩ (by decide)

/-- C5: with an empty error message and no entries, the renderer shows the
success banner, the heading, and the informational no-objects message,
listing no entries. -/
theorem c5_empty_renders_info (response : DetectionResult)
    (he : response.error_message = "") (hn : response.localized_objects = []) :
    renderResponse response =
      [Effect.successMsg "✅ Object Localization Complete",
       Effect.markdownBlock "### 🔍 Detected Objects:",
       Effect.infoMsg "No specific objects were localized in the selected region."] := by
  simp [renderResponse, he, hn]

/-- Witness for C5 at the empty response. -/
theorem c5_witness :
    renderResponse ⟨"", []⟩ =
      [Effect.successMsg "✅ Object Localization Complete",
       Effect.markdownBlock "### 🔍 Detected Objects:",
       Effect.infoMsg "No specific objects were localized in the selected region."] :=
  c5_empty_renders_info ⟨"", []⟩ rfl rfl

/-- C4: an entry whose bounding polygon is missing (empty vertex list) or
has fewer than three vertices still yields the label/score line followed by
the fallback caption; the `try/except` means no exception escapes. -/
theorem c4_short_polygon_fallback (obj : DetectedObject)
    (h : obj.normalized_vertices.length < 3) :
    renderObject obj =
      [Effect.writeLine ("- **" ++ obj.name ++ "** (Score: " ++ fmtPercent obj.score ++ ")"),
       Effect.captionLine "Bounding box data unavailable."] := by
  have h2 : obj.normalized_vertices[2]? = none := by
    rw [List.getElem?_eq_none_iff]
    omega
  cases h0 : obj.normalized_vertices[0]? with
  | none => simp [renderObject, h0, h2]
  | some v => simp [renderObject, h0, h2]

/-- Witness for C4: a two-vertex polygon degrades to the fallback caption. -/
theorem c4_witness :
    renderObject ⟨"Cat", 0.8734, [⟨0.1, 0.2⟩, ⟨0.9, 0.2⟩]⟩ =
      [Effect.writeLine ("- **" ++ "Cat" ++ "** (Score: " ++ fmtPercent 0.8734 ++ ")"),
       Effect.captionLine "Bounding box data unavailable."] :=
  c4_short_polygon_fallback ⟨"Cat", 0.8734, [⟨0.1, 0.2⟩, ⟨0.9, 0.2⟩]⟩ (by decide)

/-- C10: per-entry rendering is total — every entry yields exactly the
label/score line plus one caption, whatever the polygon field holds — and a
polygon with exactly three vertices still yields the vertex caption built
from indices 0 and 2. -/
theorem c10_rendering_total :
    (∀ obj : DetectedObject, ∃ cap : String,
      renderObject obj =
        [Effect.writeLine ("- **" ++ obj.name ++ "** (Score: " ++ fmtPercent obj.score ++ ")"),
         Effect.captionLine cap]) ∧
      ∀ (obj : DetectedObject) (v0 v1 v2 : Vertex),
        obj.normalized_vertices = [v0, v1, v2] →
        renderObject obj =
          [Effect.writeLine ("- **" ++ obj.name ++ "** (Score: " ++ fmtPercent obj.score ++ ")"),
           Effect.captionLine ("Box: (" ++ fmtFixed2 v0.x ++ ", " ++ fmtFixed2 v0.y ++
             ") to (" ++ fmtFixed2 v2.x ++ ", " ++ fmtFixed2 v2.y ++ ")")] := by
  constructor
  · intro obj
    cases h0 : obj.normalized_vertices[0]? with
    | none =>
      cases h2 : obj.normalized_vertices[2]? with
      | none => exact ⟨"Bounding box data unavailable.", by simp [renderObject, h0, h2]⟩
      | some v => exact ⟨"Bounding box data unavailable.", by simp [renderObject, h0, h2]⟩
    | some v =>
      cases h2 : obj.normalized_vertices[2]? with
      | none => exact ⟨"Bounding box data unavailable.", by simp [renderObject, h0, h2]⟩
      | some w =>
        exact ⟨"Box: (" ++ fmtFixed2 v.x ++ ", " ++ fmtFixed2 v.y ++ ") to (" ++
          fmtFixed2 w.x ++ ", " ++ fmtFixed2 w.y ++ ")", by simp [renderObject, h0, h2]⟩
  · intro obj v0 v1 v2 h
    simp [renderObject, h]

/-- Witness for C10 at a three-vertex polygon. -/
theorem c10_witness :
    renderObject ⟨"Dog", 0.5, [⟨0.1, 0.2⟩, ⟨0.3, 0.4⟩, ⟨0.5, 0.6⟩]⟩ =
      [Effect.writeLine ("- **" ++ "Dog" ++ "** (Score: " ++ fmtPercent 0.5 ++ ")"),
       Effect.captionLine ("Box: (" ++ fmtFixed2 (0.1 : ℚ) ++ ", " ++ fmtFixed2 (0.2 : ℚ) ++
         ") to (" ++ fmtFixed2 (0.5 : ℚ) ++ ", " ++ fmtFixed2 (0.6 : ℚ) ++ ")")] :=
  c10_rendering_total.2 ⟨"Dog", 0.5, [⟨0.1, 0.2⟩, ⟨0.3, 0.4⟩, ⟨0.5, 0.6⟩]⟩
    ⟨0.1, 0.2⟩ ⟨0.3, 0.4⟩ ⟨0.5, 0.6⟩ rfl

/-- C3: with an empty error and a non-empty entry list, the renderer emits
the success banner and heading and then, per entry in service order, the
label/score line (score via `:.2%`) and the diagonal-corner caption (first
and third vertex via `:.2f`); instantiated on the spec's Scenario 3 the
formatting yields the literal strings. -/
theorem c3_success_lists_objects (response : DetectionResult)
    (he : response.error_message = "") (hn : response.localized_objects ≠ []) :
    (renderResponse response =
      Effect.successMsg "✅ Object Localization Complete" ::
        Effect.markdownBlock "### 🔍 Detected Objects:" ::
          (response.localized_objects.map (fun (obj : DetectedObject) =>
            Effect.writeLine ("- **" ++ obj.name ++ "** (Score: " ++ fmtPercent obj.score ++ ")") ::
              (match obj.normalized_vertices.get? 0, obj.normalized_vertices.get? 2 with
               | some v0, some v2 =>
                  [Effect.captionLine ("Box: (" ++ fmtFixed2 v0.x ++ ", " ++ fmtFixed2 v0.y ++
                    ") to (" ++ fmtFixed2 v2.x ++ ", " ++ fmtFixed2 v2.y ++ ")")]
               | _, _ => [Effect.captionLine "Bounding box data unavailable."]))).flatten) ∧
      renderResponse ⟨"", [⟨"Cat", 0.8734, [⟨0.1, 0.2⟩, ⟨0.9, 0.2⟩, ⟨0.9, 0.8⟩, ⟨0.1, 0.8⟩]⟩]⟩ =
        [Effect.successMsg "✅ Object Localization Complete",
         Effect.markdownBlock "### 🔍 Detected Objects:",
         Effect.writeLine "- **Cat** (Score: 87.34%)",
         Effect.captionLine "Box: (0.10, 0.20) to (0.90, 0.80)"] := by
  constructor
  · simp [renderResponse, renderObject, he, hn]
    congr 2
    funext obj
    simp [renderObject]
  · have hs : fmtPercent (0.8734 : ℚ) = "87.34%" := by
      have h : qRound ((0.8734 : ℚ) * 100 * 100) = 8734 := by unfold qRound; norm_num
      simp only [fmtPercent, fmtFixed2, h]
      decide
    have h1 : fmtFixed2 (0.1 : ℚ) = "0.10" := by
      have h : qRound ((0.1 : ℚ) * 100) = 10 := by unfold qRound; norm_num
      simp only [fmtFixed2, h]
      decide
    have h2 : fmtFixed2 (0.2 : ℚ) = "0.20" := by
      have h : qRound ((0.2 : ℚ) * 100) = 20 := by unfold qRound; norm_num
      simp only [fmtFixed2, h]
      decide
    have h8 : fmtFixed2 (0.8 : ℚ) = "0.80" := by
      have h : qRound ((0.8 : ℚ) * 100) = 80 := by unfold qRound; norm_num
      simp only [fmtFixed2, h]
      decide
    have h9 : fmtFixed2 (0.9 : ℚ) = "0.90" := by
      have h : qRound ((0.9 : ℚ) * 100) = 90 := by unfold qRound; norm_num
      simp only [fmtFixed2, h]
      decide
    simp [renderResponse, renderObject, hs, h1, h2, h8, h9]

/-- Witness for C3: the spec's Scenario 3 response, with the hypotheses
discharged at that concrete input. -/
theorem c3_witness :
    renderResponse ⟨"", [⟨"Cat", 0.8734, [⟨0.1, 0.2⟩, ⟨0.9, 0.2⟩, ⟨0.9, 0.8⟩, ⟨0.1, 0.8⟩]⟩]⟩ =
      [Effect.successMsg "✅ Object Localization Complete",
       Effect.markdownBlock "### 🔍 Detected Objects:",
       Effect.writeLine "- **Cat** (Score: 87.34%)",
       Effect.captionLine "Box: (0.10, 0.20) to (0.90, 0.80)"] :=
  (c3_success_lists_objects ⟨"", [⟨"Cat", 0.8734, [⟨0.1, 0.2⟩, ⟨0.9, 0.2⟩, ⟨0.9, 0.8⟩, ⟨0.1, 0.8⟩]⟩]⟩
    rfl (by simp)).2

/-- C7: when credential loading fails, the script keeps running — the
visible credential error and traceback are emitted, no payload is ever sent
to the remote service, and with a successfully decoded upload the cropper
and preview still render while the detect button is replaced by the
warning. -/
theorem c7_credential_failure_disables_detection (e : String)
    (uploaded : Option UploadOutcome) (cropped_img : Bitmap) (pressed : Bool)
    (response : DetectionResult) :
    (runApp (CredOutcome.failed e) uploaded cropped_img pressed response).2 = none ∧
      Effect.errorMsg "❌ Could not load Google Vision API credentials from Streamlit Secrets." ∈
        (runApp (CredOutcome.failed e) uploaded cropped_img pressed response).1 ∧
      ∀ image : Bitmap, uploaded = some (Except.ok image) →
        Effect.warningMsg "Cannot run detection: Vision API client failed to initialize." ∈
            (runApp (CredOutcome.failed e) uploaded cropped_img pressed response).1 ∧
          Effect.cropperWidget ∈
            (runApp (CredOutcome.failed e) uploaded cropped_img pressed response).1 ∧
          Effect.imagePreview cropped_img ∈
            (runApp (CredOutcome.failed e) uploaded cropped_img pressed response).1 ∧
          Effect.detectButton ∉
            (runApp (CredOutcome.failed e) uploaded cropped_img pressed response).1 := by
  refine ⟨?_, ?_, ?_⟩
  · rcases uploaded with _ | u
    · simp [runApp, initClient]
    · rcases u with e2 | image <;> simp [runApp, initClient]
  · rcases uploaded with _ | u
    · simp [runApp, initClient]
    · rcases u with e2 | image <;> simp [runApp, initClient]
  · intro image hu
    subst hu
    refine ⟨?_, ?_, ?_, ?_⟩ <;> simp [runApp, initClient]

/-- Witness for C7 at a concrete failed credential load with a decoded
upload present. -/
theorem c7_witness :
    (runApp (CredOutcome.failed "bad json")
        (some (Except.ok ⟨Mode.RGB, 1, 1, [[⟨0, 0, 0, 255⟩]]⟩))
        ⟨Mode.RGB, 1, 1, [[⟨0, 0, 0, 255⟩]]⟩ true ⟨"", []⟩).2 = none ∧
      Effect.warningMsg "Cannot run detection: Vision API client failed to initialize." ∈
        (runApp (CredOutcome.failed "bad json")
          (some (Except.ok ⟨Mode.RGB, 1, 1, [[⟨0, 0, 0, 255⟩]]⟩))
          ⟨Mode.RGB, 1, 1, [[⟨0, 0, 0, 255⟩]]⟩ true ⟨"", []⟩).1 :=
  ⟨(c7_credential_failure_disables_detection "bad json"
      (some (Except.ok ⟨Mode.RGB, 1, 1, [[⟨0, 0, 0, 255⟩]]⟩))
      ⟨Mode.RGB, 1, 1, [[⟨0, 0, 0, 255⟩]]⟩ true ⟨"", []⟩).1,
    ((c7_credential_failure_disables_detection "bad json"
      (some (Except.ok ⟨Mode.RGB, 1, 1, [[⟨0, 0, 0, 255⟩]]⟩))
      ⟨Mode.RGB, 1, 1, [[⟨0, 0, 0, 255⟩]]⟩ true ⟨"", []⟩).2.2
      ⟨Mode.RGB, 1, 1, [[⟨0, 0, 0, 255⟩]]⟩ rfl).1⟩
